import Mathlib

/-!
Verification development for gunsub (src/gunsub.py): a shallow embedding of
the per-notification filter/unsubscribe logic, the repository glob matching,
the email URL rewriting, and the main checkpoint loop, together with theorems
about them.
-/

namespace Gunsub

/-! ### Glob matching (Python `fnmatch.fnmatchcase` via `fnmatch.translate`) -/

/-- Scan for the `]` closing a character class, as the bracket scan in
`fnmatch.translate` does: returns the content before the closing `]` and the
remainder after it, or `none` when no closing `]` exists. -/
def scanClose : List Char → Option (List Char × List Char)
  | [] => none
  | ']' :: rest => some ([], rest)
  | c :: rest =>
      match scanClose rest with
      | none => none
      | some (s, r) => some (c :: s, r)

/-- Parse a character class starting right after `[`. As in
`fnmatch.translate`, a leading `!` negates the class, and a `]` immediately
after `[` (or after `[!`) is part of the class body rather than its closer.
Returns `(negated, body, rest)`, or `none` when the class never closes (in
which case `[` is treated as a literal). -/
def findClass (ps : List Char) : Option (Bool × List Char × List Char) :=
  match ps with
  | '!' :: ']' :: rest =>
      match scanClose rest with
      | none => none
      | some (s, r) => some (true, ']' :: s, r)
  | '!' :: rest =>
      match scanClose rest with
      | none => none
      | some (s, r) => some (true, s, r)
  | ']' :: rest =>
      match scanClose rest with
      | none => none
      | some (s, r) => some (false, ']' :: s, r)
  | rest =>
      match scanClose rest with
      | none => none
      | some (s, r) => some (false, s, r)

/-- Membership of a character in a class body, with the regex-class semantics
produced by `fnmatch.translate`: `a-b` is an inclusive range, every other
character (including a leading or trailing `-`) stands for itself. -/
def classBody : List Char → Char → Bool
  | [], _ => false
  | a :: '-' :: b :: rest, c =>
      (decide (a ≤ c) && decide (c ≤ b)) || classBody rest c
  | a :: rest, c => (a == c) || classBody rest c

/-- A compiled glob token: `fnmatch.translate` maps `*` to `.*`, `?` to `.`,
a closed `[...]` to a regex character class, and everything else (including an
unclosed `[`) to a literal character. -/
inductive GlobTok where
  | star
  | anyChar
  | lit (c : Char)
  | cls (negated : Bool) (body : List Char)
deriving DecidableEq

/-- Pattern compilation, mirroring the loop of `fnmatch.translate`. The fuel
argument only bounds the recursion (each step consumes at least one input
character, so fuel equal to the input length never runs out). -/
def translateGlobAux : Nat → List Char → List GlobTok
  | _, [] => []
  | 0, _ :: _ => []
  | fuel + 1, '*' :: ps => GlobTok.star :: translateGlobAux fuel ps
  | fuel + 1, '?' :: ps => GlobTok.anyChar :: translateGlobAux fuel ps
  | fuel + 1, '[' :: ps =>
      match findClass ps with
      | none => GlobTok.lit '[' :: translateGlobAux fuel ps
      | some (neg, body, rest) => GlobTok.cls neg body :: translateGlobAux fuel rest
  | fuel + 1, c :: ps => GlobTok.lit c :: translateGlobAux fuel ps

def translateGlob (p : List Char) : List GlobTok :=
  translateGlobAux p.length p

/-- All suffixes of a list, longest first. -/
def allTails : List Char → List (List Char)
  | [] => [[]]
  | c :: cs => (c :: cs) :: allTails cs

/-- Anchored matching of a compiled pattern against a whole string, with the
semantics of the regex `fnmatch.translate` emits (matching is anchored at both
ends; `.` matches any character including newline because of the `(?s)` flag). -/
def tokMatch : List GlobTok → List Char → Bool
  | [], s => s.isEmpty
  | GlobTok.star :: ts, s => (allTails s).any (fun t => tokMatch ts t)
  | GlobTok.anyChar :: ts, s =>
      match s with
      | [] => false
      | _ :: cs => tokMatch ts cs
  | GlobTok.lit p :: ts, s =>
      match s with
      | [] => false
      | c :: cs => (p == c) && tokMatch ts cs
  | GlobTok.cls neg body :: ts, s =>
      match s with
      | [] => false
      | c :: cs => (classBody body c != neg) && tokMatch ts cs

/-- Model of Python `fnmatch.fnmatchcase(name, pat)`: case-sensitive glob
matching of the whole string. -/
def fnmatchcase (name pat : String) : Bool :=
  tokMatch (translateGlob pat.data) name.data

/-! ### Python `str.replace(old, new, 1)` -/

/-- Replace the first occurrence of `old` in the list by `new`; when `old`
does not occur, the list is unchanged. An empty `old` matches at the very
start, as in Python. -/
def replaceFirstList (old new : List Char) : List Char → List Char
  | [] => if old == [] then new else []
  | c :: cs =>
      if (c :: cs).take old.length == old then new ++ (c :: cs).drop old.length
      else c :: replaceFirstList old new cs

/-- Model of Python `s.replace(old, new, 1)`. -/
def replaceFirst (s old new : String) : String :=
  String.mk (replaceFirstList old.data new.data s.data)

/-! ### Data model -/

structure Subject where
  type : String
  title : String
  url : String
deriving DecidableEq

structure Repository where
  name : String
  full_name : String
deriving DecidableEq

structure Notification where
  id : String
  reason : String
  subject : Subject
  repository : Repository
deriving DecidableEq

/-- Observable side effects of processing one notification: the GET of the
per-thread subscription, the unsubscribe PUT (body `subscribed=false,
ignored=true`), the log lines carrying semantic data, and the outgoing mail. -/
inductive Effect where
  | getSubscription (threadId : String)
  | putUnsubscribe (threadId : String)
  | infoUnsubscribing (subjectUrl : String)
  | warnNoSubscribedField (subjectUrl : String)
  | emailSent (email_from : String) (email_to : Option String)
      (title : String) (url : String)
  | errorUnknownEmailType (t : String)
deriving DecidableEq

def isPut : Effect → Bool
  | Effect.getSubscription _ => false
  | Effect.putUnsubscribe _ => true
  | Effect.infoUnsubscribing _ => false
  | Effect.warnNoSubscribedField _ => false
  | Effect.emailSent _ _ _ _ => false
  | Effect.errorUnknownEmailType _ => false

def isEmail : Effect → Bool
  | Effect.getSubscription _ => false
  | Effect.putUnsubscribe _ => false
  | Effect.infoUnsubscribing _ => false
  | Effect.warnNoSubscribedField _ => false
  | Effect.emailSent _ _ _ _ => true
  | Effect.errorUnknownEmailType _ => false

def isGetSub : Effect → Bool
  | Effect.getSubscription _ => true
  | Effect.putUnsubscribe _ => false
  | Effect.infoUnsubscribing _ => false
  | Effect.warnNoSubscribedField _ => false
  | Effect.emailSent _ _ _ _ => false
  | Effect.errorUnknownEmailType _ => false

/-- The arguments of `gunsub` that the per-notification logic reads.
`dryrun` is the parameter of `gunsub` (declared with default `False`);
`argsDryrun` is the global `args.dryrun` that line 143 of the source actually
consults — the `dryrun` parameter is never read by the function body. -/
structure Config where
  github_include_repos : List String := []
  github_exclude_repos : List String := []
  dryrun : Bool := false
  argsDryrun : Bool := false
  email_from : Option String := none
  email_to : Option String := none

/-- The remote state the GitHub API supplies: whether the per-thread
subscription record contains a `url` field, and whether the response to the
unsubscribe PUT contains a `subscribed` field. -/
structure Env where
  hasSubUrl : String → Bool
  putHasSubscribed : String → Bool

/-! ### `send_email` and `repo_pattern_match` (source lines 27-67) -/

/-- Model of `send_email`: rewrites the API subject URL to a human-facing URL
(delete the first `api.`, rewrite the first `/repos/` to `/`, then the
type-specific path rewrite) and sends one mail; an unknown notification type
is logged as an error and no mail is sent. -/
def send_email (email_from : String) (email_to : Option String)
    (n : Notification) : List Effect :=
  let url := replaceFirst (replaceFirst n.subject.url "api." "") "/repos/" "/"
  if n.subject.type == "PullRequest" then
    [Effect.emailSent email_from email_to n.subject.title
      (replaceFirst url "/pulls/" "/pull/")]
  else if n.subject.type == "Issue" then
    [Effect.emailSent email_from email_to n.subject.title url]
  else if n.subject.type == "Commit" then
    [Effect.emailSent email_from email_to n.subject.title
      (replaceFirst url "/commits/" "/commit/")]
  else
    [Effect.errorUnknownEmailType n.subject.type]

/-- Model of `repo_pattern_match`: a pattern containing `/` is matched against
the repository's `full_name`, any other pattern against its short `name`. -/
def repo_pattern_match (n : Notification) (pattern : String) : Bool :=
  fnmatchcase
    (if pattern.data.contains '/' then n.repository.full_name
     else n.repository.name)
    pattern

/-- Model of `repo_list_match`: true when any pattern in the list matches. -/
def repo_list_match (n : Notification) (patterns : List String) : Bool :=
  patterns.any (fun p => repo_pattern_match n p)

/-! ### Per-notification processing (body of the inner loop of `gunsub`,
source lines 109-152) -/

/-- Source lines 143-149: the unsubscribe PUT and its response validation,
skipped entirely when the global `args.dryrun` is set; a response without a
`subscribed` field adds a warning. -/
def unsubscribeWrites (argsDryrun : Bool) (env : Env) (n : Notification) :
    List Effect :=
  if argsDryrun then []
  else
    Effect.putUnsubscribe n.id ::
      (if env.putHasSubscribed n.id then []
       else [Effect.warnNoSubscribedField n.subject.url])

/-- Source lines 150-151: `if email_from: send_email(...)` — the email is
attempted exactly when `email_from` is truthy (a non-empty string). -/
def emailEffects : Option String → Option String → Notification → List Effect
  | some ef, email_to, n => if ef == "" then [] else send_email ef email_to n
  | none, _, _ => []

/-- One notification's pass through the inner loop of `gunsub`: the filter
chain (release exclusion, include patterns, exclude patterns, reason check),
then the subscription query, the conditional unsubscribe write, and the
conditional email. Returns the emitted effects in program order and the
amount added to `count`. -/
def processNotification (cfg : Config) (env : Env) (n : Notification) :
    List Effect × Nat :=
  if n.subject.type == "Release" then ([], 0)
  else if cfg.github_include_repos != [] &&
      !(repo_list_match n cfg.github_include_repos) then ([], 0)
  else if repo_list_match n cfg.github_exclude_repos then ([], 0)
  else if n.reason != "subscribed" then ([], 0)
  else
    if env.hasSubUrl n.id then ([Effect.getSubscription n.id], 0)
    else
      (Effect.getSubscription n.id :: Effect.infoUnsubscribing n.subject.url ::
        (unsubscribeWrites cfg.argsDryrun env n ++
          emailEffects cfg.email_from cfg.email_to n), 1)

/-! ### Checkpoint loop (`main`, source lines 240-256) -/

/-- The state the loop in `main` threads between iterations: the in-memory
`since` bound and the contents of the `./next-since` checkpoint file (`none`
when the file is absent). Timestamps (Python floats from `time.time()`) are
modelled as rationals. -/
structure LoopState where
  since : Option ℚ
  stateFile : Option ℚ
deriving DecidableEq

/-- One pass of the body of the `while True` loop in `main`, from
`next_since = time.time()` (passed in as `next_since`) through the
`try`/`except`. `outcome` is what the `gunsub` call did: `Except.ok k` when it
returned after unsubscribing `k` threads, `Except.error ()` when it raised.
Returns the new state and whether the bare `except` clause fired (catching and
logging the exception). On success the checkpoint file is rewritten with the
iteration's start time unless `args.dryrun` is set, and the in-memory bound is
always advanced to it; an exception skips both. -/
def loopBody (dryrun : Bool) (next_since : ℚ) (outcome : Except Unit Nat)
    (st : LoopState) : LoopState × Bool :=
  match outcome with
  | Except.error _ => (st, true)
  | Except.ok _ =>
      ({ since := some next_since,
         stateFile := if dryrun then st.stateFile else some next_since },
       false)

/-- The `while True` loop of `main`. Each list element is one iteration's
start time and the outcome of its `gunsub` call. After the `try`/`except`,
`if not interval: break` ends the loop, so with `interval = 0` only the first
iteration runs. The bare `except` catches every exception, hence the loop (and
`main`) always terminates normally: the function returns the final state and
the number of iterations whose exception was caught and logged. -/
def mainRun (interval : Nat) (dryrun : Bool) (st : LoopState) :
    List (ℚ × Except Unit Nat) → LoopState × Nat
  | [] => (st, 0)
  | (t, outcome) :: rest =>
      let r := loopBody dryrun t outcome st
      let caught := if r.2 then 1 else 0
      if interval == 0 then (r.1, caught)
      else
        let res := mainRun interval dryrun r.1 rest
        (res.1, caught + res.2)

/-! ### `parse_args` include default (source lines 192-195) -/

/-- Model of Python `str.split(',')` on a character list: splits at every
comma; the empty input yields one empty field. -/
def splitCommaList : List Char → List (List Char)
  | [] => [[]]
  | ',' :: cs => [] :: splitCommaList cs
  | c :: cs =>
      match splitCommaList cs with
      | [] => [[c]]
      | g :: gs => (c :: g) :: gs

/-- The default for `--include`:
`os.environ.get('GITHUB_INCLUDE_REPOS', '').split(',')`, with `envVal` the
value of the environment variable (`none` when unset). -/
def include_default (envVal : Option String) : List String :=
  (splitCommaList (envVal.getD "").data).map String.mk

/-! ### Theorems -/

/-- Claim C8: every notification whose subject type is `"Release"` is rejected
by the filter chain before any pattern matching, reason check, subscription
query, unsubscribe write, or email: processing it emits no effect at all and
does not increment the counter, whatever the configuration and remote state. -/
theorem c8_release_always_rejected (cfg : Config) (env : Env)
    (n : Notification) (h : n.subject.type = "Release") :
    processNotification cfg env n = ([], 0) := by
  simp [processNotification, h]

theorem c8_release_always_rejected_witness :
    processNotification {} ⟨fun _ => false, fun _ => false⟩
      ⟨"1", "subscribed", ⟨"Release", "t", "u"⟩, ⟨"r", "o/r"⟩⟩ = ([], 0) :=
  c8_release_always_rejected _ _ _ rfl

/-- Claim C2: a notification whose reason is not exactly `"subscribed"` is
never acted on: its thread's subscription is neither queried nor mutated and
no email is sent, regardless of subject type, patterns, or remote state
(processing it emits no effect and does not increment the counter). -/
theorem c2_other_reasons_untouched (cfg : Config) (env : Env)
    (n : Notification) (h : n.reason ≠ "subscribed") :
    processNotification cfg env n = ([], 0) := by
  unfold processNotification
  split
  · rfl
  · split
    · rfl
    · split
      · rfl
      · split
        · rfl
        · simp_all

theorem c2_other_reasons_untouched_witness :
    processNotification {} ⟨fun _ => false, fun _ => false⟩
      ⟨"2", "mentioned", ⟨"Issue", "t", "u"⟩, ⟨"r", "o/r"⟩⟩ = ([], 0) :=
  c2_other_reasons_untouched _ _ _ (by decide)

/-- Claim C7: with a non-empty include list, a notification whose repository
matches no include pattern is rejected; a notification matching any exclude
pattern is rejected (even when it also matches an include pattern, since the
rejection holds for every configuration); include `["octo/*"]` accepts full
name `octo/widgets` and rejects `other/widgets`; exclude `["noisy-repo"]`
matches a repository with short name `noisy-repo`. -/
theorem c7_include_exclude_filters :
    (∀ (cfg : Config) (env : Env) (n : Notification),
        cfg.github_include_repos ≠ [] →
        repo_list_match n cfg.github_include_repos = false →
        processNotification cfg env n = ([], 0))
    ∧ (∀ (cfg : Config) (env : Env) (n : Notification),
        repo_list_match n cfg.github_exclude_repos = true →
        processNotification cfg env n = ([], 0))
    ∧ (∀ n : Notification, n.repository.full_name = "octo/widgets" →
        repo_list_match n ["octo/*"] = true)
    ∧ (∀ n : Notification, n.repository.full_name = "other/widgets" →
        repo_list_match n ["octo/*"] = false)
    ∧ (∀ n : Notification, n.repository.name = "noisy-repo" →
        repo_list_match n ["noisy-repo"] = true) := by
  refine ⟨?_, ?_, ?_, ?_, ?_⟩
  · intro cfg env n h1 h2
    unfold processNotification
    split
    · rfl
    · simp [h1, h2]
  · intro cfg env n h
    unfold processNotification
    split
    · rfl
    · split
      · rfl
      · simp [h]
  · intro n h
    simp [repo_list_match, repo_pattern_match, h]
    decide
  · intro n h
    simp [repo_list_match, repo_pattern_match, h]
    decide
  · intro n h
    simp [repo_list_match, repo_pattern_match, h]
    decide

theorem c7_include_exclude_filters_witness :
    repo_list_match
      ⟨"3", "subscribed", ⟨"Issue", "t", "u"⟩, ⟨"widgets", "octo/widgets"⟩⟩
      ["octo/*"] = true :=
  c7_include_exclude_filters.2.2.1 _ rfl

/-- Claim C6: a pattern containing the separator `/` is matched against the
repository's full `owner/name`, a pattern without it against the short name
only; a notification matches a pattern list iff it matches at least one
pattern in it; and matching has case-sensitive shell-glob semantics
(`*`, `?`, `[...]`, including `[!...]` negation and ranges). -/
theorem c6_pattern_matching_semantics :
    (∀ (n : Notification) (p : String), p.data.contains '/' = true →
        repo_pattern_match n p = fnmatchcase n.repository.full_name p)
    ∧ (∀ (n : Notification) (p : String), p.data.contains '/' = false →
        repo_pattern_match n p = fnmatchcase n.repository.name p)
    ∧ (∀ (n : Notification) (ps : List String),
        repo_list_match n ps = true ↔ ∃ p ∈ ps, repo_pattern_match n p = true)
    ∧ fnmatchcase "octagon" "octa*" = true
    ∧ fnmatchcase "Octagon" "octa*" = false
    ∧ fnmatchcase "abc" "a?c" = true
    ∧ fnmatchcase "ac" "a?c" = false
    ∧ fnmatchcase "abc" "a[bx]c" = true
    ∧ fnmatchcase "adc" "a[bx]c" = false
    ∧ fnmatchcase "adc" "a[!bx]c" = true
    ∧ fnmatchcase "amc" "a[b-x]c" = true := by
  refine ⟨?_, ?_, ?_, ?_, ?_, ?_, ?_, ?_, ?_, ?_, ?_⟩
  · intro n p h
    unfold repo_pattern_match
    rw [h, if_pos rfl]
  · intro n p h
    unfold repo_pattern_match
    rw [h, if_neg (by simp)]
  · intro n ps
    simp [repo_list_match, List.any_eq_true]
  · decide
  · decide
  · decide
  · decide
  · decide
  · decide
  · decide
  · decide

theorem c6_pattern_matching_semantics_witness :
    repo_pattern_match
      ⟨"4", "subscribed", ⟨"Issue", "t", "u"⟩, ⟨"widgets", "octo/widgets"⟩⟩
      "octo/*"
    = fnmatchcase "octo/widgets" "octo/*" :=
  c6_pattern_matching_semantics.1 _ "octo/*" (by decide)

/-- Claim C10: with `GITHUB_INCLUDE_REPOS` unset and no `--include` flag, the
default include list is `[""]` (the empty string split on commas), which is
non-empty; the empty glob pattern matches only the empty repository name, so
the include filter rejects every notification with a non-empty repository
name and nothing is ever unsubscribed in that configuration. -/
theorem c10_default_include_rejects_everything :
    include_default none = [""]
    ∧ include_default none ≠ []
    ∧ (∀ s : String, fnmatchcase s "" = true ↔ s = "")
    ∧ (∀ n : Notification, n.repository.name ≠ "" →
        repo_list_match n (include_default none) = false)
    ∧ (∀ (cfg : Config) (env : Env) (n : Notification),
        cfg.github_include_repos = include_default none →
        n.repository.name ≠ "" →
        processNotification cfg env n = ([], 0)) := by
  have hempty : ∀ s : String, fnmatchcase s "" = true ↔ s = "" := by
    intro s
    obtain ⟨l⟩ := s
    cases l with
    | nil => simp [fnmatchcase, translateGlob, translateGlobAux, tokMatch]
    | cons c cs =>
        simp [fnmatchcase, translateGlob, translateGlobAux, tokMatch,
          String.ext_iff]
  have hlist : ∀ n : Notification, n.repository.name ≠ "" →
      repo_list_match n (include_default none) = false := by
    intro n h
    have hd : include_default none = [""] := by decide
    rw [hd]
    simp only [repo_list_match, List.any_cons, List.any_nil,
      Bool.or_false]
    simp only [repo_pattern_match]
    have hc : (("" : String).data.contains '/') = false := by decide
    rw [hc]
    simp only [if_false, Bool.false_eq_true]
    cases hm : fnmatchcase n.repository.name "" with
    | false => rfl
    | true => exact absurd ((hempty n.repository.name).mp hm) h
  refine ⟨by decide, by decide, hempty, hlist, ?_⟩
  intro cfg env n hcfg h
  have hne : cfg.github_include_repos ≠ [] := by
    rw [hcfg]
    decide
  have hm : repo_list_match n cfg.github_include_repos = false := by
    rw [hcfg]
    exact hlist n h
  unfold processNotification
  split
  · rfl
  · simp [hne, hm]

theorem c10_default_include_rejects_everything_witness :
    processNotification
      { github_include_repos := include_default none }
      ⟨fun _ => false, fun _ => false⟩
      ⟨"5", "subscribed", ⟨"Issue", "t", "u"⟩, ⟨"widgets", "octo/widgets"⟩⟩
      = ([], 0) :=
  c10_default_include_rejects_everything.2.2.2.2 _
    ⟨fun _ => false, fun _ => false⟩ _ rfl (by decide)

/-- Claim C4: an iteration of the loop in `main` that completes without
raising sets the in-memory `since` bound to the iteration's start time
whatever the unsubscribe count was, and (outside dry-run) rewrites the
checkpoint file with that same start time; an iteration whose `gunsub` call
raises leaves the state — both file and in-memory bound — entirely unchanged
(the exception being caught by the bare `except`). -/
theorem c4_checkpoint_lifecycle (dryrun : Bool) (t : ℚ) (k : Nat)
    (st : LoopState) :
    ((loopBody dryrun t (Except.ok k) st).1.since = some t)
    ∧ (dryrun = false →
        (loopBody dryrun t (Except.ok k) st).1.stateFile = some t)
    ∧ (loopBody dryrun t (Except.error ()) st = (st, true)) := by
  refine ⟨rfl, ?_, rfl⟩
  intro h
  simp [loopBody, h]

theorem c4_checkpoint_lifecycle_witness :
    ((loopBody false (7/2) (Except.ok 3) ⟨some 1, some 1⟩).1.since
        = some (7/2))
    ∧ ((loopBody false (7/2) (Except.ok 3) ⟨some 1, some 1⟩).1.stateFile
        = some (7/2)) :=
  ⟨(c4_checkpoint_lifecycle false (7/2) 3 ⟨some 1, some 1⟩).1,
   (c4_checkpoint_lifecycle false (7/2) 3 ⟨some 1, some 1⟩).2.1 rfl⟩

/-- Claim C5 counterexample: in single-shot mode (interval 0) an exception
raised by the iteration's `gunsub` call does not propagate: the bare `except`
of the loop catches and logs it (caught-count 1) and `main` returns normally
with the state unchanged, contradicting the claim that no iteration loop
catches it and that the process exits abnormally. -/
theorem c5_singleshot_exception_is_caught :
    mainRun 0 false ⟨none, none⟩ [((1 : ℚ), Except.error ())]
      = (⟨none, none⟩, 1) := rfl

/-- Claim C5 (amended): in single-shot mode an exception raised during the
iteration's processing is caught and logged by the same bare `except` handler
as in continuous mode; the loop then breaks and `main` returns normally, the
checkpoint state unchanged. -/
theorem c5_singleshot_catches_and_exits_normally (dryrun : Bool) (t : ℚ)
    (st : LoopState) :
    mainRun 0 dryrun st [(t, Except.error ())] = (st, 1) := rfl

/-- `send_email` never issues an unsubscribe write. -/
theorem send_email_countP_isPut (ef : String) (et : Option String)
    (n : Notification) : (send_email ef et n).countP isPut = 0 := by
  unfold send_email
  split
  · rfl
  · split
    · rfl
    · split
      · rfl
      · rfl

/-- The conditional email block never issues an unsubscribe write. -/
theorem emailEffects_countP_isPut (email_from email_to : Option String)
    (n : Notification) :
    (emailEffects email_from email_to n).countP isPut = 0 := by
  cases email_from with
  | none => rfl
  | some ef =>
      show (if (ef == "") = true then ([] : List Effect)
            else send_email ef email_to n).countP isPut = 0
      cases hef0 : (ef == "")
      · exact send_email_countP_isPut ef email_to n
      · rfl

/-- Outside dry-run, the write block holds exactly one unsubscribe PUT. -/
theorem unsubscribeWrites_countP_isPut (env : Env) (n : Notification) :
    (unsubscribeWrites false env n).countP isPut = 1 := by
  unfold unsubscribeWrites
  cases h : env.putHasSubscribed n.id <;> rfl

/-- The write block never sends an email. -/
theorem unsubscribeWrites_countP_isEmail (b : Bool) (env : Env)
    (n : Notification) :
    (unsubscribeWrites b env n).countP isEmail = 0 := by
  unfold unsubscribeWrites
  cases b
  · cases h : env.putHasSubscribed n.id <;> rfl
  · rfl

/-- A truthy `email_from` makes the conditional email block call
`send_email`. -/
theorem emailEffects_some (ef : String) (email_to : Option String)
    (n : Notification) (h : ef ≠ "") :
    emailEffects (some ef) email_to n = send_email ef email_to n := by
  show (if (ef == "") = true then ([] : List Effect)
        else send_email ef email_to n) = send_email ef email_to n
  rw [if_neg (by simp [h])]

/-- Outside dry-run, an unacknowledged PUT response adds the warning to the
write block. -/
theorem unsubscribeWrites_warn (env : Env) (n : Notification)
    (h : env.putHasSubscribed n.id = false) :
    Effect.warnNoSubscribedField n.subject.url ∈ unsubscribeWrites false env n := by
  unfold unsubscribeWrites
  rw [h]
  simp

/-- Claim C9: the email URL rewriting deletes the first `api.` and rewrites
the first `/repos/` to `/`; then type `PullRequest` additionally rewrites the
first `/pulls/` to `/pull/`, type `Commit` the first `/commits/` to
`/commit/`, and type `Issue` leaves the path segment unchanged; in
particular `https://api.github.com/repos/o/r/pulls/5` becomes
`https://github.com/o/r/pull/5` for a pull request. -/
theorem c9_email_url_rewriting :
    (∀ (ef : String) (et : Option String) (n : Notification),
        n.subject.type = "PullRequest" →
        send_email ef et n = [Effect.emailSent ef et n.subject.title
          (replaceFirst (replaceFirst (replaceFirst n.subject.url "api." "")
            "/repos/" "/") "/pulls/" "/pull/")])
    ∧ (∀ (ef : String) (et : Option String) (n : Notification),
        n.subject.type = "Commit" →
        send_email ef et n = [Effect.emailSent ef et n.subject.title
          (replaceFirst (replaceFirst (replaceFirst n.subject.url "api." "")
            "/repos/" "/") "/commits/" "/commit/")])
    ∧ (∀ (ef : String) (et : Option String) (n : Notification),
        n.subject.type = "Issue" →
        send_email ef et n = [Effect.emailSent ef et n.subject.title
          (replaceFirst (replaceFirst n.subject.url "api." "")
            "/repos/" "/")])
    ∧ send_email "f" (some "t")
        ⟨"6", "subscribed",
          ⟨"PullRequest", "T", "https://api.github.com/repos/o/r/pulls/5"⟩,
          ⟨"r", "o/r"⟩⟩
        = [Effect.emailSent "f" (some "t") "T" "https://github.com/o/r/pull/5"]
    ∧ send_email "f" (some "t")
        ⟨"6", "subscribed",
          ⟨"Commit", "T", "https://api.github.com/repos/o/r/commits/abc"⟩,
          ⟨"r", "o/r"⟩⟩
        = [Effect.emailSent "f" (some "t") "T"
            "https://github.com/o/r/commit/abc"]
    ∧ send_email "f" (some "t")
        ⟨"6", "subscribed",
          ⟨"Issue", "T", "https://api.github.com/repos/o/r/issues/7"⟩,
          ⟨"r", "o/r"⟩⟩
        = [Effect.emailSent "f" (some "t") "T"
            "https://github.com/o/r/issues/7"] := by
  refine ⟨?_, ?_, ?_, by decide, by decide, by decide⟩
  · intro ef et n h
    simp [send_email, h]
  · intro ef et n h
    simp [send_email, h]
  · intro ef et n h
    simp [send_email, h]

theorem c9_email_url_rewriting_witness :
    send_email "from" (some "to")
      ⟨"6", "subscribed",
        ⟨"PullRequest", "W", "https://api.github.com/repos/a/b/pulls/9"⟩,
        ⟨"b", "a/b"⟩⟩
      = [Effect.emailSent "from" (some "to") "W"
          (replaceFirst (replaceFirst (replaceFirst
            "https://api.github.com/repos/a/b/pulls/9" "api." "")
            "/repos/" "/") "/pulls/" "/pull/")] :=
  c9_email_url_rewriting.1 "from" (some "to") _ rfl

/-- Claim C3: the claim that every call of `gunsub` with `dryrun=True` issues
no PUT fails on the code. Line 143 tests the global `args.dryrun`, never the
`dryrun` parameter, so a call with `dryrun := true` while the global flag is
false still issues the unsubscribe PUT for an eligible notification: the code
contradicts its own declared `dryrun=False` parameter. -/
theorem c3_dryrun_parameter_ignored :
    ((processNotification
        { dryrun := true, argsDryrun := false }
        ⟨fun _ => false, fun _ => false⟩
        ⟨"7", "subscribed", ⟨"Issue", "T", "u"⟩, ⟨"r", "o/r"⟩⟩).1.countP isPut
      = 1)
    ∧ ((processNotification
        { dryrun := false, argsDryrun := true,
          email_from := some "f", email_to := some "t" }
        ⟨fun _ => false, fun _ => false⟩
        ⟨"7", "subscribed", ⟨"Issue", "T", "u"⟩, ⟨"r", "o/r"⟩⟩).1.countP isPut
      = 0)
    ∧ ((processNotification
        { dryrun := false, argsDryrun := true,
          email_from := some "f", email_to := some "t" }
        ⟨fun _ => false, fun _ => false⟩
        ⟨"7", "subscribed", ⟨"Issue", "T", "u"⟩, ⟨"r", "o/r"⟩⟩).1.countP isEmail
      = 1)
    ∧ ((processNotification
        { dryrun := false, argsDryrun := true,
          email_from := some "f", email_to := some "t" }
        ⟨fun _ => false, fun _ => false⟩
        ⟨"7", "subscribed", ⟨"Issue", "T", "u"⟩, ⟨"r", "o/r"⟩⟩).2
      = 1)
    ∧ (∀ (t : ℚ) (k : Nat) (st : LoopState),
        (loopBody true t (Except.ok k) st).1.stateFile = st.stateFile) := by
  refine ⟨by decide, by decide, by decide, by decide, ?_⟩
  intro t k st
  rfl

theorem c3_dryrun_parameter_ignored_witness :
    (loopBody true (1 : ℚ) (Except.ok 2) ⟨none, some 5⟩).1.stateFile
      = some 5 :=
  c3_dryrun_parameter_ignored.2.2.2.2 1 2 ⟨none, some 5⟩

/-- Claim C1 counterexample: an eligible notification (reason `"subscribed"`,
no explicit subscription record, email pair configured, not dry-run) whose
subject type is unknown to `send_email` (here `"Discussion"`) receives its
unsubscribe PUT but NO email — `send_email` logs an error and returns before
the SMTP send — refuting the claim that exactly one email is always sent. -/
theorem c1_no_email_for_unknown_subject_type :
    ((processNotification
        { argsDryrun := false, email_from := some "f", email_to := some "t" }
        ⟨fun _ => false, fun _ => false⟩
        ⟨"9", "subscribed", ⟨"Discussion", "T", "u"⟩, ⟨"r", "o/r"⟩⟩).1.countP
      isPut = 1)
    ∧ ((processNotification
        { argsDryrun := false, email_from := some "f", email_to := some "t" }
        ⟨fun _ => false, fun _ => false⟩
        ⟨"9", "subscribed", ⟨"Discussion", "T", "u"⟩, ⟨"r", "o/r"⟩⟩).1.countP
      isEmail = 0) := by
  refine ⟨by decide, by decide⟩

/-- Claim C1 (amended): for a notification with reason `"subscribed"`,
passing the release and include/exclude filters, whose subscription query
finds no `url` field, and with the dry-run flag unset: exactly one
unsubscribe PUT is issued; the notification is counted as handled; when an
email sender is configured, exactly one email is sent when the subject type
is emailable (`PullRequest`, `Issue` or `Commit`), while any other type logs
an error and sends none; and when the PUT response lacks the `subscribed`
field only a warning is logged, everything else unchanged. -/
theorem c1_unsubscribe_flow (cfg : Config) (env : Env) (n : Notification)
    (hrel : n.subject.type ≠ "Release")
    (hinc : cfg.github_include_repos = [] ∨
        repo_list_match n cfg.github_include_repos = true)
    (hexc : repo_list_match n cfg.github_exclude_repos = false)
    (hreason : n.reason = "subscribed")
    (hsub : env.hasSubUrl n.id = false)
    (hdry : cfg.argsDryrun = false) :
    ((processNotification cfg env n).1.countP isPut = 1)
    ∧ ((processNotification cfg env n).2 = 1)
    ∧ (∀ ef : String, cfg.email_from = some ef → ef ≠ "" →
        ((n.subject.type = "PullRequest" ∨ n.subject.type = "Issue" ∨
            n.subject.type = "Commit") →
          (processNotification cfg env n).1.countP isEmail = 1)
        ∧ (n.subject.type ≠ "PullRequest" → n.subject.type ≠ "Issue" →
            n.subject.type ≠ "Commit" →
          (processNotification cfg env n).1.countP isEmail = 0
          ∧ Effect.errorUnknownEmailType n.subject.type ∈
              (processNotification cfg env n).1))
    ∧ (cfg.email_from = none →
        (processNotification cfg env n).1.countP isEmail = 0)
    ∧ (env.putHasSubscribed n.id = false →
        Effect.warnNoSubscribedField n.subject.url ∈
          (processNotification cfg env n).1) := by
  have h2 : (cfg.github_include_repos != [] &&
      !(repo_list_match n cfg.github_include_repos)) = false := by
    rcases hinc with h | h <;> simp [h]
  have hkey : processNotification cfg env n =
      (Effect.getSubscription n.id :: Effect.infoUnsubscribing n.subject.url ::
        (unsubscribeWrites false env n ++
          emailEffects cfg.email_from cfg.email_to n), 1) := by
    unfold processNotification
    rw [hdry, if_neg (by simp [hrel]), if_neg (by simp [h2]),
      if_neg (by simp [hexc]), if_neg (by simp [hreason]),
      if_neg (by simp [hsub])]
  refine ⟨?_, ?_, ?_, ?_, ?_⟩
  · rw [hkey]
    simp [List.countP_cons, List.countP_append, isPut,
      unsubscribeWrites_countP_isPut env n,
      emailEffects_countP_isPut cfg.email_from cfg.email_to n]
  · rw [hkey]
  · intro ef hef hef0
    constructor
    · intro ht
      rw [hkey, hef, emailEffects_some ef cfg.email_to n hef0]
      rcases ht with ht | ht | ht <;>
        simp [List.countP_cons, List.countP_append, isEmail,
          unsubscribeWrites_countP_isEmail false env n, send_email, ht]
    · intro ht1 ht2 ht3
      have k1 : (n.subject.type == "PullRequest") = false := by simp [ht1]
      have k2 : (n.subject.type == "Issue") = false := by simp [ht2]
      have k3 : (n.subject.type == "Commit") = false := by simp [ht3]
      rw [hkey, hef, emailEffects_some ef cfg.email_to n hef0]
      constructor
      · simp [List.countP_cons, List.countP_append, isEmail,
          unsubscribeWrites_countP_isEmail false env n, send_email,
          k1, k2, k3]
      · simp [send_email, k1, k2, k3]
  · intro hef
    rw [hkey, hef]
    simp [List.countP_cons, List.countP_append, isEmail, emailEffects,
      unsubscribeWrites_countP_isEmail false env n]
  · intro hps
    rw [hkey]
    exact List.mem_cons_of_mem _ (List.mem_cons_of_mem _
      (List.mem_append_left _ (unsubscribeWrites_warn env n hps)))

theorem c1_unsubscribe_flow_witness :
    ((processNotification
        { email_from := some "f", email_to := some "t" }
        ⟨fun _ => false, fun _ => false⟩
        ⟨"8", "subscribed",
          ⟨"PullRequest", "T", "https://api.github.com/repos/o/r/pulls/5"⟩,
          ⟨"r", "o/r"⟩⟩).1.countP isPut = 1)
    ∧ ((processNotification
        { email_from := some "f", email_to := some "t" }
        ⟨fun _ => false, fun _ => false⟩
        ⟨"8", "subscribed",
          ⟨"PullRequest", "T", "https://api.github.com/repos/o/r/pulls/5"⟩,
          ⟨"r", "o/r"⟩⟩).1.countP isEmail = 1)
    ∧ (Effect.warnNoSubscribedField "https://api.github.com/repos/o/r/pulls/5"
        ∈ (processNotification
            { email_from := some "f", email_to := some "t" }
            ⟨fun _ => false, fun _ => false⟩
            ⟨"8", "subscribed",
              ⟨"PullRequest", "T", "https://api.github.com/repos/o/r/pulls/5"⟩,
              ⟨"r", "o/r"⟩⟩).1) := by
  have h := c1_unsubscribe_flow
    { email_from := some "f", email_to := some "t" }
    ⟨fun _ => false, fun _ => false⟩
    ⟨"8", "subscribed",
      ⟨"PullRequest", "T", "https://api.github.com/repos/o/r/pulls/5"⟩,
      ⟨"r", "o/r"⟩⟩
    (by decide) (Or.inl rfl) (by decide) rfl rfl rfl
  exact ⟨h.1, (h.2.2.1 "f" rfl (by decide)).1 (Or.inl rfl), h.2.2.2.2 rfl⟩

end Gunsub
